import Mathlib

/-!
Shallow embedding of `minxss_parser.py` (class Minxss_Parser) and proofs about it.

Modelling conventions:
  * A Python `bytearray` is a `List ℕ`, each element in `[0, 255]` where it matters.
  * A Python exception is an `Except` error value (`PyErr`).
  * Python `float` arithmetic is modelled over the reals `ℝ`.
  * Log calls (`self.log.error` and friends) are collected in an output list.
  * The numpy casts `int8/uint8/int16/uint16/int32/uint32` follow numpy 1.x
    semantics, which silently truncate out-of-range integers modulo the width.
  * A numpy scalar shifted by a small Python int, as in `int8(b) << 8`, keeps
    8-bit arithmetic under numpy 1.x value-based promotion (the Python shift
    count fits in the 8-bit dtype), so a shift count of 8 or more yields 0.
-/

namespace MinxssParser

/-- Python exception kinds that the embedded code can raise. -/
inductive PyErr where
  | indexError : PyErr
  | typeError : PyErr
  | valueError : PyErr
  | zeroDivisionError : PyErr
deriving DecidableEq, Repr

/-- Severity of a log record emitted through the `self.log` collaborator. -/
inductive LogLevel where
  | debug : LogLevel
  | info : LogLevel
  | error : LogLevel
deriving DecidableEq, Repr

/-- A single emitted log record. -/
abbrev LogEntry := LogLevel × String

/-- A Python run-time value as returned by the decode functions: `None`,
an integer (plain or numpy scalar), a float, or a bytearray. -/
inductive PyVal where
  | none : PyVal
  | int : Int → PyVal
  | float : ℝ → PyVal
  | bytes : List ℕ → PyVal

/-- Results of `parsePacket`: the integer sentinel `-1`, or the telemetry
dictionary (an insertion-ordered association list, as keys never repeat). -/
inductive PyRet where
  | retInt : Int → PyRet
  | retDict : List (String × PyVal) → PyRet

/-- numpy 1.x `int8(x)` for a Python int `x`: truncate modulo 256 into
`[-128, 127]`. -/
def np_int8 (x : Int) : Int := (x + 128) % 256 - 128

/-- numpy 1.x `uint8(x)`: truncate modulo 256 into `[0, 255]`. -/
def np_uint8 (x : Int) : Int := x % 256

/-- numpy 1.x `int16(x)`: truncate modulo 2^16 into `[-2^15, 2^15 - 1]`. -/
def np_int16 (x : Int) : Int := (x + 32768) % 65536 - 32768

/-- numpy 1.x `uint16(x)`: truncate modulo 2^16 into `[0, 2^16 - 1]`. -/
def np_uint16 (x : Int) : Int := x % 65536

/-- numpy 1.x `int32(x)`: truncate modulo 2^32 into `[-2^31, 2^31 - 1]`. -/
def np_int32 (x : Int) : Int := (x + 2147483648) % 4294967296 - 2147483648

/-- numpy 1.x `uint32(x)`: truncate modulo 2^32 into `[0, 2^32 - 1]`. -/
def np_uint32 (x : Int) : Int := x % 4294967296

/-- numpy 1.x evaluation of `s << k` where `s` is an `int8` scalar and `k` a
small nonnegative Python int: value-based promotion keeps both operands in the
8-bit dtype, the ufunc loop computes in 8-bit arithmetic, so a shift count of
8 or more produces 0 and smaller counts truncate back into `int8`. -/
def np_int8_shl (a : Int) (k : ℕ) : Int := if 8 ≤ k then 0 else np_int8 (a * 2 ^ k)

/-- numpy 1.x evaluation of `s << k` for a `uint8` scalar `s`, as in
`np_int8_shl`: 8-bit arithmetic, shift counts of 8 or more produce 0. -/
def np_uint8_shl (a : Int) (k : ℕ) : Int := if 8 ≤ k then 0 else np_uint8 (a * 2 ^ k)

/-- Embedding of `Minxss_Parser.decodeBytes(bytearrayTemp, returnUnsignedInt)`.
Length 1 returns the bytearray itself; length 2 and 4 combine numpy casts and
shifts exactly as written in the source (note that in the 4-byte branch the
shifts of bytes 0..2 sit inside the `uint8(...)` cast); any other length logs
a debug record and falls off the end of the function, returning `None`. -/
def decodeBytes (bytearrayTemp : List ℕ) (returnUnsignedInt : Bool := false) :
    PyVal × List LogEntry :=
  match bytearrayTemp with
  | [_] => (PyVal.bytes bytearrayTemp, [])
  | [b0, b1] =>
    if returnUnsignedInt then
      (PyVal.int (np_uint16 (Int.lor (np_int8_shl (np_int8 (b1 : Int)) 8)
        (np_uint8 (b0 : Int)))), [])
    else
      (PyVal.int (np_int16 (Int.lor (np_uint8_shl (np_uint8 (b1 : Int)) 8)
        (np_uint8 (b0 : Int)))), [])
  | [b0, b1, b2, b3] =>
    if returnUnsignedInt then
      (PyVal.int (np_uint32 (Int.lor (Int.lor (Int.lor
        (np_uint8_shl (np_uint8 (b3 : Int)) 24)
        (np_uint8 ((b2 : Int) * 2 ^ 16)))
        (np_uint8 ((b1 : Int) * 2 ^ 8)))
        (np_uint8 ((b0 : Int) * 2 ^ 0)))), [])
    else
      (PyVal.int (np_int32 (Int.lor (Int.lor (Int.lor
        (np_uint8_shl (np_uint8 (b3 : Int)) 24)
        (np_uint8 ((b2 : Int) * 2 ^ 16)))
        (np_uint8 ((b1 : Int) * 2 ^ 8)))
        (np_uint8 ((b0 : Int) * 2 ^ 0)))), [])
  | _ => (PyVal.none, [(LogLevel.debug, "More bytes than expected")])

/-- Does the pattern appear as an initial segment of the list?  This is the
single comparison step of the left-to-right scan of Python `bytearray.find`. -/
def startsWith : List ℕ → List ℕ → Bool
  | [], _ => true
  | _ :: _, [] => false
  | p :: ps, b :: bs => p == b && startsWith ps bs

/-- Leftmost-occurrence search of Python `bytearray.find`, returning the index
of the first byte of the first occurrence, as an `Option ℕ`. -/
def findSubNat (pat : List ℕ) : List ℕ → Option ℕ
  | [] => if startsWith pat [] then some 0 else none
  | b :: bs =>
    if startsWith pat (b :: bs) then some 0
    else (findSubNat pat bs).map (· + 1)

/-- Embedding of `Minxss_Parser.findSyncStartIndex`: `bytearray.find` of the
start sync bytes `0x08 0x19`, with `-1` for not found. -/
def findSyncStartIndex (minxssSerialData : List ℕ) : Int :=
  match findSubNat [0x08, 0x19] minxssSerialData with
  | some i => (i : Int)
  | none => -1

/-- Embedding of `Minxss_Parser.findSyncStopIndex`: `bytearray.find` of the
stop sync bytes `0xA5 0xA5`, with `-1` for not found. -/
def findSyncStopIndex (minxssSerialData : List ℕ) : Int :=
  match findSubNat [0xa5, 0xa5] minxssSerialData with
  | some i => (i : Int)
  | none => -1

/-- Python slice `p[a:b]` for `0 ≤ a ≤ b`: clamps at both ends, never fails. -/
def pySlice (p : List ℕ) (a b : ℕ) : List ℕ := (p.drop a).take (b - a)

/-- Python indexing `p[i]` for `i ≥ 0`: raises `IndexError` out of range. -/
def pyIndex (p : List ℕ) (i : ℕ) : Except PyErr ℕ :=
  match p.get? i with
  | some v => Except.ok v
  | Option.none => Except.error PyErr.indexError

/-- Embedding of Python `int(x, base)` applied to an `int` first argument, as
in `BatteryVoltage`: `int` with an explicit base requires a string first
argument, so an integer argument raises `TypeError` unconditionally. -/
def pyIntOfIntWithBase (_x : Int) (_base : ℕ) : Except PyErr Int :=
  Except.error PyErr.typeError

/-- Embedding of `Minxss_Parser.TempCalc`.  The two bytes are summed to a
voltage proxy, a voltage-divider and Beta-law model is applied, and Python
float behaviour is modelled over `ℝ`: dividing by an exact zero raises
`ZeroDivisionError` and `math.log` of a non-positive argument raises
`ValueError` (math domain error). -/
noncomputable def TempCalc (bytearrayTemp : List ℕ) : Except PyErr ℝ :=
  match bytearrayTemp with
  | v0 :: v1 :: _ =>
    let Tinv : ℝ := 1 / 298
    let B : ℝ := 3430
    let Voltage_thermistor : ℝ := (v0 : ℝ) + (v1 : ℝ)
    if (3.3 : ℝ) - Voltage_thermistor = 0 then Except.error PyErr.zeroDivisionError
    else
      let Resistance_thermistor : ℝ :=
        Voltage_thermistor / (3.3 - Voltage_thermistor) * 23 * 1000
      let R : ℝ := Resistance_thermistor / 10000
      if R ≤ 0 then Except.error PyErr.valueError
      else if Tinv + Real.log R / B = 0 then Except.error PyErr.zeroDivisionError
      else Except.ok (1 / (Tinv + Real.log R / B) - 273)
  | _ => Except.error PyErr.indexError

/-- `decodeTimeStamp`: falls off the end of the function, returning `None`. -/
def decodeTimeStamp (_bytearrayTemp : List ℕ) : PyVal := PyVal.none

/-- `decodeCommandReceivedCount`: returns `None`. -/
def decodeCommandReceivedCount (_bytearrayTemp : List ℕ) : PyVal := PyVal.none

/-- `decodeLastCommandReceived`: returns `None`. -/
def decodeLastCommandReceived (_bytearrayTemp : List ℕ) : PyVal := PyVal.none

/-- `decodeTemperature`: wraps `TempCalc`. -/
noncomputable def decodeTemperature (bytearrayTemp : List ℕ) : Except PyErr PyVal :=
  (TempCalc bytearrayTemp).map PyVal.float

/-- `decodeCDHPrimaryData`: returns `None`. -/
def decodeCDHPrimaryData (_bytearrayTemp : List ℕ) : PyVal := PyVal.none

/-- `decodeRejectedCIPPackets`: returns `None`. -/
def decodeRejectedCIPPackets (_bytearrayTemp : List ℕ) : PyVal := PyVal.none

/-- `decodeLastDownlinkedHKSector`: returns `None`. -/
def decodeLastDownlinkedHKSector (_bytearrayTemp : List ℕ) : PyVal := PyVal.none

/-- `LastdownlinkedScienceSector`: returns `None`. -/
def LastdownlinkedScienceSector (_bytearrayTemp : List ℕ) : PyVal := PyVal.none

/-- `LastdownlinkedADCSSector`: returns `None`. -/
def LastdownlinkedADCSSector (_bytearrayTemp : List ℕ) : PyVal := PyVal.none

/-- Embedding of `Minxss_Parser.BatteryVoltage`: sums the first two bytes to
a plain Python int, then evaluates `int(temp_hexdata, scale)` with
`scale = 16`, which raises `TypeError` because the first argument is an int,
not a string.  The trailing `decodeBytes` return is therefore unreachable,
but is kept to mirror the source. -/
def BatteryVoltage (bytearrayTemp : List ℕ) : Except PyErr PyVal := do
  let b0 ← pyIndex bytearrayTemp 0
  let b1 ← pyIndex bytearrayTemp 1
  let temp_hexdata : Int := (b0 : Int) + (b1 : Int)
  let scale : ℕ := 16
  let _ ← pyIntOfIntWithBase temp_hexdata scale
  pure (decodeBytes bytearrayTemp).1

/-- `decodeBatteryCurrent`: returns `None`. -/
def decodeBatteryCurrent (_bytearrayTemp : List ℕ) : PyVal := PyVal.none

/-- `decodeBatterySOC`: returns `None`. -/
def decodeBatterySOC (_bytearrayTemp : List ℕ) : PyVal := PyVal.none

/-- `decodeBatteryTemperature`: wraps `TempCalc`. -/
noncomputable def decodeBatteryTemperature (bytearrayTemp : List ℕ) : Except PyErr PyVal :=
  (TempCalc bytearrayTemp).map PyVal.float

/-- `decodeSolarPanelVoltage`: returns `None`. -/
def decodeSolarPanelVoltage (_bytearrayTemp : List ℕ) : PyVal := PyVal.none

/-- `decodeSolarPanelCurrent`: returns `None`. -/
def decodeSolarPanelCurrent (_bytearrayTemp : List ℕ) : PyVal := PyVal.none

/-- `decodeInterfaceBoardTemperature`: wraps `TempCalc`. -/
noncomputable def decodeInterfaceBoardTemperature (bytearrayTemp : List ℕ) :
    Except PyErr PyVal :=
  (TempCalc bytearrayTemp).map PyVal.float

/-- `decodeEPSBoardTemperature`: wraps `TempCalc`. -/
noncomputable def decodeEPSBoardTemperature (bytearrayTemp : List ℕ) :
    Except PyErr PyVal :=
  (TempCalc bytearrayTemp).map PyVal.float

/-- `decodeCIPVoltage` and the rest of the placeholder conversions all return
the constant `1`; they are embedded by one shared constant function each so
the field table keeps the source names. -/
def decodeCIPVoltage (_bytearrayTemp : List ℕ) : PyVal := PyVal.int 1

/-- `decodeCIPCurrent`: returns `1`. -/
def decodeCIPCurrent (_bytearrayTemp : List ℕ) : PyVal := PyVal.int 1

/-- `decodeADCSVoltage`: returns `1`. -/
def decodeADCSVoltage (_bytearrayTemp : List ℕ) : PyVal := PyVal.int 1

/-- `decodeADCSCurrent`: returns `1`. -/
def decodeADCSCurrent (_bytearrayTemp : List ℕ) : PyVal := PyVal.int 1

/-- `decodeSBandVoltage`: returns `1`. -/
def decodeSBandVoltage (_bytearrayTemp : List ℕ) : PyVal := PyVal.int 1

/-- `decodeSBandCurrent`: returns `1`. -/
def decodeSBandCurrent (_bytearrayTemp : List ℕ) : PyVal := PyVal.int 1

/-- `decodeUHFVoltage`: returns `1`. -/
def decodeUHFVoltage (_bytearrayTemp : List ℕ) : PyVal := PyVal.int 1

/-- `decodeUHFCurrent`: returns `1`. -/
def decodeUHFCurrent (_bytearrayTemp : List ℕ) : PyVal := PyVal.int 1

/-- `decodeCDHVoltage`: returns `1`. -/
def decodeCDHVoltage (_bytearrayTemp : List ℕ) : PyVal := PyVal.int 1

/-- `decodeCDHCurrent`: returns `1`. -/
def decodeCDHCurrent (_bytearrayTemp : List ℕ) : PyVal := PyVal.int 1

/-- `decodeGPS3Voltage`: returns `1`. -/
def decodeGPS3Voltage (_bytearrayTemp : List ℕ) : PyVal := PyVal.int 1

/-- `decodeGPS3Current`: returns `1`. -/
def decodeGPS3Current (_bytearrayTemp : List ℕ) : PyVal := PyVal.int 1

/-- `decodeGPS12Voltage`: returns `1`. -/
def decodeGPS12Voltage (_bytearrayTemp : List ℕ) : PyVal := PyVal.int 1

/-- `decodeGPS12Current`: returns `1`. -/
def decodeGPS12Current (_bytearrayTemp : List ℕ) : PyVal := PyVal.int 1

/-- `decodeBatteryHeaterCurrent`: returns `1`. -/
def decodeBatteryHeaterCurrent (_bytearrayTemp : List ℕ) : PyVal := PyVal.int 1

/-- `decodeGeneralInfo`: returns `1`. -/
def decodeGeneralInfo (_bytearrayTemp : List ℕ) : PyVal := PyVal.int 1

/-- `decodeCIPTemperature`: returns `1`. -/
def decodeCIPTemperature (_bytearrayTemp : List ℕ) : PyVal := PyVal.int 1

/-- `decodeSystemChecksTemp`: returns `1`. -/
def decodeSystemChecksTemp (_bytearrayTemp : List ℕ) : PyVal := PyVal.int 1

/-- `decodeSystemCheckCurrent`: returns `1`. -/
def decodeSystemCheckCurrent (_bytearrayTemp : List ℕ) : PyVal := PyVal.int 1

/-- `decodeShellTemp`: returns `1`. -/
def decodeShellTemp (_bytearrayTemp : List ℕ) : PyVal := PyVal.int 1

/-- `decodeCheckSumCounter`: returns `1`. -/
def decodeCheckSumCounter (_bytearrayTemp : List ℕ) : PyVal := PyVal.int 1

/-- `decodeConfigurationStatus`: returns `1`. -/
def decodeConfigurationStatus (_bytearrayTemp : List ℕ) : PyVal := PyVal.int 1

/-- `decodeSBandByte`: returns `1`. -/
def decodeSBandByte (_bytearrayTemp : List ℕ) : PyVal := PyVal.int 1

/-- `decodeCommandStatus`: returns `1`. -/
def decodeCommandStatus (_bytearrayTemp : List ℕ) : PyVal := PyVal.int 1

/-- `decodeCommandRejectCount`: returns `1`. -/
def decodeCommandRejectCount (_bytearrayTemp : List ℕ) : PyVal := PyVal.int 1

/-- `decodeCommandAcceptCount`: returns `1`. -/
def decodeCommandAcceptCount (_bytearrayTemp : List ℕ) : PyVal := PyVal.int 1

/-- `decodeTimeValid`: returns `1`. -/
def decodeTimeValid (_bytearrayTemp : List ℕ) : PyVal := PyVal.int 1

/-- `decodeTimeNow`: returns `1`. -/
def decodeTimeNow (_bytearrayTemp : List ℕ) : PyVal := PyVal.int 1

/-- `decodeRefsValid`: returns `1`. -/
def decodeRefsValid (_bytearrayTemp : List ℕ) : PyVal := PyVal.int 1

/-- `decodeAttitudeValid`: returns `1`. -/
def decodeAttitudeValid (_bytearrayTemp : List ℕ) : PyVal := PyVal.int 1

/-- `decodeADCSMode`: returns `1`. -/
def decodeADCSMode (_bytearrayTemp : List ℕ) : PyVal := PyVal.int 1

/-- `decodeRecommendSunPoint`: returns `1`. -/
def decodeRecommendSunPoint (_bytearrayTemp : List ℕ) : PyVal := PyVal.int 1

/-- `decodeSunPointState`: returns `1`. -/
def decodeSunPointState (_bytearrayTemp : List ℕ) : PyVal := PyVal.int 1

/-- `decodeStarTrackerTemperature`: returns `1`. -/
def decodeStarTrackerTemperature (_bytearrayTemp : List ℕ) : PyVal := PyVal.int 1

/-- `decodeWheelTemperatures`: returns `1`. -/
def decodeWheelTemperatures (_bytearrayTemp : List ℕ) : PyVal := PyVal.int 1

/-- `decodeDigitalBusVoltage`: returns `1`. -/
def decodeDigitalBusVoltage (_bytearrayTemp : List ℕ) : PyVal := PyVal.int 1

/-- `decodeSunVector`: returns `1`. -/
def decodeSunVector (_bytearrayTemp : List ℕ) : PyVal := PyVal.int 1

/-- `decodeWheelEstDrag`: returns `1`. -/
def decodeWheelEstDrag (_bytearrayTemp : List ℕ) : PyVal := PyVal.int 1

/-- `decodeWheelMeasuredSpeed`: returns `1`. -/
def decodeWheelMeasuredSpeed (_bytearrayTemp : List ℕ) : PyVal := PyVal.int 1

/-- `decodeBodyFrameRate`: returns `1`. -/
def decodeBodyFrameRate (_bytearrayTemp : List ℕ) : PyVal := PyVal.int 1

/-- The field-walking body of `parsePacket` after reframing: each telemetry
point is decoded from its fixed slice of the reframed packet `p`, in source
order, and the result dictionary is assembled in that insertion order.  The
fallible steps (`decodeTemperature`, `BatteryVoltage`, the other `TempCalc`
wrappers) are sequenced with the `Except` monad; all other conversions are
total constants and cannot raise. -/
noncomputable def parseFields (p : List ℕ) : Except PyErr PyRet := do
  let timeStamp := decodeTimeStamp (pySlice p 0 5)
  let commandsReceived := decodeCommandReceivedCount (pySlice p 5 9)
  let lastCommandReceived := decodeLastCommandReceived (pySlice p 9 11)
  let temperature ← decodeTemperature (pySlice p 11 13)
  let cdhPrimaryData := decodeCDHPrimaryData (pySlice p 13 14)
  let rejectedCIPPackets := decodeRejectedCIPPackets (pySlice p 14 18)
  let lastDownlinkedHKSector := decodeLastDownlinkedHKSector (pySlice p 18 22)
  let lastDownlinkedScienceSector := LastdownlinkedScienceSector (pySlice p 22 26)
  let lastDownlinkedADCSSector := LastdownlinkedADCSSector (pySlice p 26 30)
  let batteryVoltage ← BatteryVoltage (pySlice p 29 31)
  let batteryCurrent := decodeBatteryCurrent (pySlice p 31 33)
  let batterySOC := decodeBatterySOC (pySlice p 33 35)
  let batteryTemperature ← decodeBatteryTemperature (pySlice p 35 43)
  let solarPanelVoltage := decodeSolarPanelVoltage (pySlice p 43 49)
  let solarPanelCurrent := decodeSolarPanelCurrent (pySlice p 49 54)
  let interfaceBoardTemperature ← decodeInterfaceBoardTemperature (pySlice p 54 56)
  let epsBoardTemperature ← decodeEPSBoardTemperature (pySlice p 56 58)
  let cipVoltage := decodeCIPVoltage (pySlice p 58 60)
  let cipCurrent := decodeCIPCurrent (pySlice p 60 62)
  let adcsVoltage := decodeADCSVoltage (pySlice p 62 64)
  let adcsCurrent := decodeADCSCurrent (pySlice p 64 66)
  let sBandVoltage := decodeSBandVoltage (pySlice p 66 68)
  let sBandCurrent := decodeSBandCurrent (pySlice p 68 70)
  let uhfVoltage := decodeUHFVoltage (pySlice p 70 72)
  let uhfCurrent := decodeUHFCurrent (pySlice p 72 74)
  let cdhVoltage := decodeCDHVoltage (pySlice p 74 76)
  let cdhCurrent := decodeCDHCurrent (pySlice p 76 78)
  let gps3Voltage := decodeGPS3Voltage (pySlice p 78 80)
  let gps3Current := decodeGPS3Current (pySlice p 80 82)
  let gps12Voltage := decodeGPS12Voltage (pySlice p 82 88)
  let gps12Current := decodeGPS12Current (pySlice p 88 94)
  let batteryHeaterCurrent := decodeBatteryHeaterCurrent (pySlice p 94 96)
  let generalInformation := decodeGeneralInfo (pySlice p 96 100)
  let cipTemperature := decodeCIPTemperature (pySlice p 100 106)
  let systemCheckTemperature := decodeSystemChecksTemp (pySlice p 106 108)
  let systemCheckCurrentChannel := decodeSystemCheckCurrent (pySlice p 108 109)
  let shellTemperature := decodeShellTemp (pySlice p 109 111)
  let checkSumCounter := decodeCheckSumCounter (pySlice p 111 113)
  let configurationStatus := decodeConfigurationStatus (pySlice p 113 114)
  let sBandByte := decodeSBandByte (pySlice p 114 115)
  let commandStatus := decodeCommandStatus (pySlice p 115 116)
  let commandRejectCount := decodeCommandRejectCount (pySlice p 116 117)
  let commandAcceptCount := decodeCommandAcceptCount (pySlice p 117 118)
  let timeValid := decodeTimeValid (pySlice p 118 119)
  let timeNow := decodeTimeNow (pySlice p 119 123)
  let refsValid := decodeRefsValid (pySlice p 123 124)
  let attitudeValid := decodeAttitudeValid (pySlice p 123 124)
  let adcsMode := decodeADCSMode (pySlice p 124 125)
  let recommendSunPoint := decodeRecommendSunPoint (pySlice p 125 126)
  let sunPointState := decodeSunPointState (pySlice p 126 127)
  let starTrackerTemperature := decodeStarTrackerTemperature (pySlice p 127 128)
  let wheelTemperatures := decodeWheelTemperatures (pySlice p 128 134)
  let digitalBusVoltage := decodeDigitalBusVoltage (pySlice p 134 136)
  let sunVector := decodeSunVector (pySlice p 136 142)
  let wheelEstDrag := decodeWheelEstDrag (pySlice p 142 148)
  let wheelMeasuredSpeed := decodeWheelMeasuredSpeed (pySlice p 148 154)
  let bodyFrameRate := decodeBodyFrameRate (pySlice p 154 166)
  pure (PyRet.retDict
    [("Time Stamp", timeStamp),
     ("Commands Received", commandsReceived),
     ("Last Command Received", lastCommandReceived),
     ("Temperature", temperature),
     ("C&DH Primary Data", cdhPrimaryData),
     ("Rejected CIP Packets", rejectedCIPPackets),
     ("Last Downlinked HK Sector", lastDownlinkedHKSector),
     ("Last downlinked Science Sector", lastDownlinkedScienceSector),
     ("Last downlinked ADCS Sector", lastDownlinkedADCSSector),
     ("Battery Voltage", batteryVoltage),
     ("Battery Current", batteryCurrent),
     ("Battery SOC", batterySOC),
     ("Battery Temperature", batteryTemperature),
     ("Solar Panel Voltage", solarPanelVoltage),
     ("Solar Panel Current", solarPanelCurrent),
     ("Interface Board Temperature", interfaceBoardTemperature),
     ("EPS Board Temperature", epsBoardTemperature),
     ("CIP Voltage", cipVoltage),
     ("CIP Current", cipCurrent),
     ("ADCS Voltage", adcsVoltage),
     ("ADCS Current", adcsCurrent),
     ("S-Band Voltage", sBandVoltage),
     ("S-Band Current", sBandCurrent),
     ("UHF Voltage", uhfVoltage),
     ("UHF Current", uhfCurrent),
     ("C&DH Voltage", cdhVoltage),
     ("C&DH Current", cdhCurrent),
     ("GPS 3.3 Voltage", gps3Voltage),
     ("GPS 3.3 Current", gps3Current),
     ("GPS 12 Voltage", gps12Voltage),
     ("GPS 12 Current", gps12Current),
     ("Battery Heater Current", batteryHeaterCurrent),
     ("General Information", generalInformation),
     ("CIP Temperature", cipTemperature),
     ("System Check Temperature", systemCheckTemperature),
     ("System Check Current Channel", systemCheckCurrentChannel),
     ("Shell Temperature", shellTemperature),
     ("Check Sum Counter", checkSumCounter),
     ("Configuration Status", configurationStatus),
     ("SBandByte", sBandByte),
     ("Command Status", commandStatus),
     ("Command Reject Count", commandRejectCount),
     ("Command Accept Count", commandAcceptCount),
     ("Time Valid", timeValid),
     ("Time Now", timeNow),
     ("Refs Valid", refsValid),
     ("Attitude Valid", attitudeValid),
     ("ADCS Mode", adcsMode),
     ("Recommend Sun Point", recommendSunPoint),
     ("Sun Point State", sunPointState),
     ("Star Tracker Temperature", starTrackerTemperature),
     ("Wheel Temperatures", wheelTemperatures),
     ("Digital Bus Voltage", digitalBusVoltage),
     ("Sun Vector", sunVector),
     ("Wheel Est Drag", wheelEstDrag),
     ("Wheel Measured Speed", wheelMeasuredSpeed),
     ("Body Frame Rate", bodyFrameRate)])

/-- The packaging of `parseFields`: an uncaught exception propagates, a
completed dictionary is returned after the two `log.info` calls (the second
one logs the dictionary itself and is modelled by a placeholder message). -/
noncomputable def runParseFields (p : List ℕ) : Except PyErr PyRet × List LogEntry :=
  match parseFields p with
  | Except.ok d => (Except.ok d, [(LogLevel.info, "From MinXSS parser:"),
                                  (LogLevel.info, "selectedTelemetryDictionary")])
  | Except.error e => (Except.error e, [])

/-- Embedding of `Minxss_Parser.parsePacket`: locate the start sync bytes; on
failure log an error record and return the integer `-1`; otherwise reframe by
dropping every byte before the sync offset and walk the field table. -/
noncomputable def parsePacket (inspirePacket : List ℕ) :
    Except PyErr PyRet × List LogEntry :=
  let syncOffset := findSyncStartIndex inspirePacket
  if syncOffset = -1 then
    (Except.ok (PyRet.retInt (-1)),
     [(LogLevel.error, "No start sync bytes found in minxss_parser, exiting.")])
  else
    runParseFields (inspirePacket.drop syncOffset.toNat)

/-- The example telemetry packet constructed in the module `__main__` block. -/
def exampleData : List ℕ :=
  [0xc0, 0x00, 0x9a, 0x92, 0x00, 0xb0, 0xa6, 0x64, 0x60, 0x86,
   0xa2, 0x40, 0x40, 0x40, 0x40, 0xe1, 0x03, 0xf0, 0x08, 0x19,
   0xc1, 0x6f, 0x00, 0xf7, 0xf1, 0x34, 0xd6, 0x45, 0x47, 0x02,
   0x0a, 0x86, 0x4b, 0x00, 0x0c, 0x00, 0x01, 0x00, 0x2e, 0x74,
   0x01, 0x03, 0x30, 0x03, 0x00, 0x03, 0x79, 0x00, 0x00, 0x01,
   0xfa, 0xc7, 0x10, 0x01, 0x03, 0x00, 0x00, 0x01, 0x5a, 0x80,
   0x04, 0x01, 0x00, 0x00, 0x00, 0x92, 0x00, 0x00, 0x00, 0x21,
   0x00, 0x00, 0x00, 0x01, 0x00, 0x00, 0x00, 0x08, 0x00, 0x00,
   0x00, 0x01, 0x00, 0x00, 0x00, 0x80, 0x00, 0x00, 0x5f, 0x00,
   0x47, 0x13, 0x00, 0x00, 0x0a, 0x80, 0xf6, 0x01, 0xe2, 0x03,
   0xd3, 0x0b, 0x06, 0x08, 0x90, 0x18, 0x05, 0x04, 0x00, 0x00,
   0x00, 0x00, 0x00, 0x00, 0x00, 0x00, 0x00, 0x00, 0x01, 0x00,
   0x00, 0x00, 0x8e, 0x01, 0x13, 0x00, 0x6d, 0x00, 0x00, 0x64,
   0x88, 0x01, 0x00, 0x00, 0xac, 0x25, 0x01, 0x00, 0x07, 0x0b,
   0x20, 0x17, 0x40, 0x15, 0x90, 0x15, 0x80, 0x17, 0x40, 0x18,
   0xe0, 0xce, 0x58, 0x61, 0x08, 0x00, 0x78, 0x07, 0x08, 0x00,
   0x80, 0x06, 0x08, 0x00, 0x30, 0x06, 0x18, 0x00, 0x50, 0x20,
   0x30, 0x01, 0x90, 0x0d, 0x18, 0x00, 0x78, 0x13, 0x4d, 0x05,
   0x44, 0x05, 0x51, 0x05, 0x09, 0x08, 0x14, 0x00, 0x9e, 0x05,
   0x6c, 0x00, 0xa0, 0x05, 0xf3, 0x01, 0x5c, 0x00, 0x4f, 0x02,
   0x52, 0x02, 0x53, 0x01, 0x53, 0x01, 0x33, 0x01, 0x00, 0x00,
   0x08, 0x01, 0x00, 0x00, 0x7e, 0x00, 0x00, 0x00, 0xcd, 0x00,
   0x00, 0x00, 0x00, 0x00, 0x00, 0x00, 0x00, 0x00, 0x00, 0x00,
   0x00, 0x00, 0xc7, 0x2f, 0x20, 0x12, 0xd8, 0x00, 0x00, 0x00,
   0x05, 0x07, 0x02, 0x00, 0x00, 0x00, 0x27, 0x06, 0x00, 0x00,
   0x09, 0x06, 0x00, 0x00, 0x00, 0x00, 0x00, 0x00, 0xfc, 0xff,
   0xfd, 0xff, 0x07, 0x00, 0x07, 0x49, 0x00, 0x00, 0xe5, 0xf9,
   0xa5, 0xa5, 0xc0]

/-! ### Helper lemmas about `TempCalc` -/

/-- The real thermistor formula of the specification, with the constants
23000 and 10000 written the way the spec writes them. -/
noncomputable def thermistorFormula (V : ℝ) : ℝ :=
  1 / (1 / 298 + Real.log (V / (3.3 - V) * 23000 / 10000) / 3430) - 273

lemma tempCalc_cons (v0 v1 : ℕ) (rest : List ℕ) :
    TempCalc (v0 :: v1 :: rest) =
      (if (3.3 : ℝ) - ((v0 : ℝ) + (v1 : ℝ)) = 0 then Except.error PyErr.zeroDivisionError
       else if ((v0 : ℝ) + (v1 : ℝ)) / (3.3 - ((v0 : ℝ) + (v1 : ℝ))) * 23 * 1000 / 10000 ≤ 0 then
         Except.error PyErr.valueError
       else if (1 : ℝ) / 298 +
           Real.log (((v0 : ℝ) + (v1 : ℝ)) / (3.3 - ((v0 : ℝ) + (v1 : ℝ))) * 23 * 1000 / 10000) / 3430 = 0 then
         Except.error PyErr.zeroDivisionError
       else Except.ok (1 / ((1 : ℝ) / 298 +
           Real.log (((v0 : ℝ) + (v1 : ℝ)) / (3.3 - ((v0 : ℝ) + (v1 : ℝ))) * 23 * 1000 / 10000) / 3430) - 273)) := by
  rfl

lemma tempCalc_domain_err (b0 b1 : ℕ) (h : b0 + b1 = 0 ∨ 4 ≤ b0 + b1) :
    TempCalc [b0, b1] = Except.error PyErr.valueError := by
  rcases h with h | h
  · have hb0 : b0 = 0 := by omega
    have hb1 : b1 = 0 := by omega
    subst hb0; subst hb1
    rw [tempCalc_cons]
    norm_num
  · have h4 : (4 : ℝ) ≤ (b0 : ℝ) + (b1 : ℝ) := by
      have : ((4 : ℕ) : ℝ) ≤ ((b0 + b1 : ℕ) : ℝ) := Nat.cast_le.mpr h
      push_cast at this
      linarith
    have h33 : (3.3 : ℝ) - ((b0 : ℝ) + (b1 : ℝ)) < 0 := by linarith
    have hq : ((b0 : ℝ) + (b1 : ℝ)) / (3.3 - ((b0 : ℝ) + (b1 : ℝ))) < 0 :=
      div_neg_of_pos_of_neg (by linarith) h33
    rw [tempCalc_cons, if_neg (by linarith), if_pos (by nlinarith)]

lemma tempCalc_ok (b0 b1 : ℕ) (h1 : 1 ≤ b0 + b1) (h3 : b0 + b1 ≤ 3) :
    TempCalc [b0, b1] = Except.ok (thermistorFormula ((b0 : ℝ) + (b1 : ℝ))) := by
  have hV : (b0 : ℝ) + (b1 : ℝ) = ((b0 + b1 : ℕ) : ℝ) := by push_cast; ring
  rw [tempCalc_cons, hV]
  interval_cases h : b0 + b1
  · -- V = 1, R = 1
    have hR : ((1 : ℕ) : ℝ) / (3.3 - ((1 : ℕ) : ℝ)) * 23 * 1000 / 10000 = 1 := by
      norm_num
    rw [hR]
    simp [thermistorFormula, Real.log_one]
    norm_num
  · -- V = 2, R = 46/13
    have hR : ((2 : ℕ) : ℝ) / (3.3 - ((2 : ℕ) : ℝ)) * 23 * 1000 / 10000 = 46 / 13 := by
      norm_num
    have hlog : 0 ≤ Real.log ((46 : ℝ) / 13) := Real.log_nonneg (by norm_num)
    rw [hR]
    rw [if_neg (by norm_num), if_neg (by norm_num), if_neg (by positivity)]
    simp only [thermistorFormula]
    norm_num
  · -- V = 3, R = 23
    have hR : ((3 : ℕ) : ℝ) / (3.3 - ((3 : ℕ) : ℝ)) * 23 * 1000 / 10000 = 23 := by
      norm_num
    have hlog : 0 ≤ Real.log (23 : ℝ) := Real.log_nonneg (by norm_num)
    rw [hR]
    rw [if_neg (by norm_num), if_neg (by norm_num), if_neg (by positivity)]
    simp only [thermistorFormula]
    norm_num

/-! ### Helper lemmas about `BatteryVoltage` and `parseFields` -/

lemma exceptBind_ok {α β : Type} (a : α) (f : α → Except PyErr β) :
    (Except.ok a >>= f) = f a := rfl

lemma exceptBind_error {α β : Type} (e : PyErr) (f : α → Except PyErr β) :
    ((Except.error e : Except PyErr α) >>= f) = Except.error e := rfl

lemma exceptMap_ok {α β : Type} (g : α → β) (a : α) :
    (g <$> (Except.ok a : Except PyErr α)) = Except.ok (g a) := rfl

lemma exceptMap_error {α β : Type} (g : α → β) (e : PyErr) :
    (g <$> (Except.error e : Except PyErr α)) = Except.error e := rfl

lemma exceptMapFn_ok {α β : Type} (g : α → β) (a : α) :
    Except.map g (Except.ok a : Except PyErr α) = Except.ok (g a) := rfl

lemma exceptMapFn_error {α β : Type} (g : α → β) (e : PyErr) :
    Except.map g (Except.error e : Except PyErr α) = Except.error e := rfl

lemma batteryVoltage_error (b : List ℕ) :
    BatteryVoltage b =
      Except.error (if 2 ≤ b.length then PyErr.typeError else PyErr.indexError) := by
  rcases b with _ | ⟨x, _ | ⟨y, t⟩⟩ <;>
    simp [BatteryVoltage, pyIndex, pyIntOfIntWithBase, exceptBind_ok, exceptBind_error]

lemma parseFields_error_of_temp_error (p : List ℕ) (e : PyErr)
    (h : TempCalc (pySlice p 11 13) = Except.error e) :
    parseFields p = Except.error e := by
  simp [parseFields, decodeTemperature, h, exceptBind_ok, exceptBind_error,
    exceptMap_ok, exceptMap_error, exceptMapFn_ok, exceptMapFn_error]

lemma parseFields_error_of_temp_ok (p : List ℕ) (v : ℝ)
    (h : TempCalc (pySlice p 11 13) = Except.ok v) :
    parseFields p = Except.error
      (if 2 ≤ (pySlice p 29 31).length then PyErr.typeError else PyErr.indexError) := by
  simp [parseFields, decodeTemperature, h, exceptBind_ok, exceptBind_error,
    exceptMap_ok, exceptMap_error, exceptMapFn_ok, exceptMapFn_error, batteryVoltage_error]

lemma parseFields_error (p : List ℕ) : ∃ e, parseFields p = Except.error e := by
  cases h : TempCalc (pySlice p 11 13) with
  | error e => exact ⟨e, parseFields_error_of_temp_error p e h⟩
  | ok v => exact ⟨_, parseFields_error_of_temp_ok p v h⟩

lemma runParseFields_error (p : List ℕ) :
    ∃ e, runParseFields p = (Except.error e, []) := by
  obtain ⟨e, he⟩ := parseFields_error p
  exact ⟨e, by simp [runParseFields, he]⟩

/-! ### Helper lemmas about the sync-byte search -/

lemma startsWith_iff : ∀ (pat l : List ℕ), (startsWith pat l = true ↔ l.take pat.length = pat)
  | [], l => by simp [startsWith]
  | p :: ps, [] => by simp [startsWith]
  | p :: ps, b :: bs => by
    rw [List.length_cons, List.take_succ_cons]
    simp only [startsWith, Bool.and_eq_true, beq_iff_eq, List.cons.injEq]
    rw [startsWith_iff ps bs]
    constructor
    · rintro ⟨rfl, h⟩; exact ⟨rfl, h⟩
    · rintro ⟨rfl, h⟩; exact ⟨rfl, h⟩

lemma findSubNat_map_eq_none (pat bs : List ℕ) :
    ((findSubNat pat bs).map (· + 1) = none ↔ findSubNat pat bs = none) := by
  cases findSubNat pat bs <;> simp

lemma findSubNat_none_iff_sw (pat buf : List ℕ) :
    findSubNat pat buf = none ↔ ∀ i : ℕ, ¬ startsWith pat (buf.drop i) := by
  induction buf with
  | nil =>
    by_cases h : startsWith pat ([] : List ℕ)
    · constructor
      · intro hn; exfalso; simp [findSubNat, h] at hn
      · intro hall; exact absurd h (by simpa using hall 0)
    · constructor
      · intro _ i
        rw [List.drop_nil]
        exact h
      · intro _
        simp [findSubNat, h]
  | cons b bs ih =>
    by_cases h : startsWith pat (b :: bs)
    · constructor
      · intro hn; exfalso; simp [findSubNat, h] at hn
      · intro hall; exact absurd h (by simpa using hall 0)
    · rw [show findSubNat pat (b :: bs) = (findSubNat pat bs).map (· + 1) from by
        simp [findSubNat, h]]
      rw [findSubNat_map_eq_none, ih]
      constructor
      · intro hall i
        cases i with
        | zero => simpa using h
        | succ j => simpa using hall j
      · intro hall j
        simpa using hall (j + 1)

lemma findSubNat_some_iff_sw (pat buf : List ℕ) : ∀ i : ℕ,
    (findSubNat pat buf = some i ↔
      (startsWith pat (buf.drop i) = true ∧ ∀ j : ℕ, j < i → ¬ startsWith pat (buf.drop j))) := by
  induction buf with
  | nil =>
    intro i
    by_cases h : startsWith pat ([] : List ℕ)
    · rw [show findSubNat pat ([] : List ℕ) = some 0 from by simp [findSubNat, h]]
      constructor
      · intro h0
        obtain rfl : i = 0 := by cases h0; rfl
        exact ⟨by simpa using h, by omega⟩
      · rintro ⟨h1, h2⟩
        rcases Nat.eq_zero_or_pos i with rfl | hi
        · rfl
        · exact absurd (by simpa using h) (h2 0 hi)
    · rw [show findSubNat pat ([] : List ℕ) = none from by simp [findSubNat, h]]
      constructor
      · intro h0; cases h0
      · rintro ⟨h1, _⟩
        rw [List.drop_nil] at h1
        exact absurd h1 h
  | cons b bs ih =>
    intro i
    by_cases h : startsWith pat (b :: bs)
    · rw [show findSubNat pat (b :: bs) = some 0 from by simp [findSubNat, h]]
      constructor
      · intro h0
        obtain rfl : i = 0 := by cases h0; rfl
        exact ⟨by simpa using h, by omega⟩
      · rintro ⟨h1, h2⟩
        rcases Nat.eq_zero_or_pos i with rfl | hi
        · rfl
        · exact absurd (by simpa using h) (h2 0 hi)
    · rw [show findSubNat pat (b :: bs) = (findSubNat pat bs).map (· + 1) from by
        simp [findSubNat, h]]
      constructor
      · intro hmap
        cases hfs : findSubNat pat bs with
        | none => rw [hfs] at hmap; cases hmap
        | some iPrev =>
          rw [hfs] at hmap
          simp only [Option.map_some', Option.some.injEq] at hmap
          obtain ⟨ha, hb⟩ := (ih iPrev).mp hfs
          subst hmap
          refine ⟨by simpa using ha, ?_⟩
          intro j hj
          cases j with
          | zero => simpa using h
          | succ jPrev =>
            have hlt : jPrev < iPrev := by omega
            simpa using hb jPrev hlt
      · rintro ⟨h1, h2⟩
        cases i with
        | zero => exact absurd (by simpa using h1) h
        | succ iPrev =>
          have hms : findSubNat pat bs = some iPrev := by
            apply (ih iPrev).mpr
            refine ⟨by simpa using h1, ?_⟩
            intro j hj
            have := h2 (j + 1) (by omega)
            simpa using this
          rw [hms]
          rfl

lemma findSubNat_none_iff (pat buf : List ℕ) :
    findSubNat pat buf = none ↔ ∀ i : ℕ, (buf.drop i).take pat.length ≠ pat := by
  simp only [findSubNat_none_iff_sw, startsWith_iff]

lemma findSubNat_some_iff (pat buf : List ℕ) (i : ℕ) :
    findSubNat pat buf = some i ↔
      ((buf.drop i).take pat.length = pat ∧
        ∀ j : ℕ, j < i → (buf.drop j).take pat.length ≠ pat) := by
  simp only [findSubNat_some_iff_sw, startsWith_iff]

lemma findSyncStartIndex_eq_neg_one (buf : List ℕ) :
    findSyncStartIndex buf = -1 ↔ findSubNat [0x08, 0x19] buf = none := by
  cases h : findSubNat [0x08, 0x19] buf with
  | none => simp [findSyncStartIndex, h]
  | some i =>
    simp only [findSyncStartIndex, h]
    constructor
    · intro hc; omega
    · intro hc; cases hc

lemma findSyncStartIndex_eq_ofNat (buf : List ℕ) (i : ℕ) :
    findSyncStartIndex buf = (i : Int) ↔ findSubNat [0x08, 0x19] buf = some i := by
  cases h : findSubNat [0x08, 0x19] buf with
  | none =>
    simp only [findSyncStartIndex, h]
    constructor
    · intro hc; omega
    · intro hc; cases hc
  | some j =>
    simp only [findSyncStartIndex, h, Option.some.injEq]
    constructor
    · intro hc
      have : j = i := by omega
      omega
    · intro hc; omega

lemma findSyncStopIndex_eq_neg_one (buf : List ℕ) :
    findSyncStopIndex buf = -1 ↔ findSubNat [0xa5, 0xa5] buf = none := by
  cases h : findSubNat [0xa5, 0xa5] buf with
  | none => simp [findSyncStopIndex, h]
  | some i =>
    simp only [findSyncStopIndex, h]
    constructor
    · intro hc; omega
    · intro hc; cases hc

lemma findSyncStopIndex_eq_ofNat (buf : List ℕ) (i : ℕ) :
    findSyncStopIndex buf = (i : Int) ↔ findSubNat [0xa5, 0xa5] buf = some i := by
  cases h : findSubNat [0xa5, 0xa5] buf with
  | none =>
    simp only [findSyncStopIndex, h]
    constructor
    · intro hc; omega
    · intro hc; cases hc
  | some j =>
    simp only [findSyncStopIndex, h, Option.some.injEq]
    constructor
    · intro hc
      have : j = i := by omega
      omega
    · intro hc; omega

/-! ### Helper lemmas about `parsePacket` -/

lemma parsePacket_of_no_marker (buf : List ℕ)
    (h : findSubNat [0x08, 0x19] buf = none) :
    parsePacket buf = (Except.ok (PyRet.retInt (-1)),
      [(LogLevel.error, "No start sync bytes found in minxss_parser, exiting.")]) := by
  have hs : findSyncStartIndex buf = -1 := (findSyncStartIndex_eq_neg_one buf).mpr h
  simp [parsePacket, hs]

lemma parsePacket_of_marker (buf : List ℕ) (i : ℕ)
    (h : findSubNat [0x08, 0x19] buf = some i) :
    parsePacket buf = runParseFields (buf.drop i) := by
  have hs : findSyncStartIndex buf = (i : Int) := (findSyncStartIndex_eq_ofNat buf i).mpr h
  have hne : ¬ ((i : Int) = -1) := by omega
  simp [parsePacket, hs, hne]

lemma parsePacket_error_of_marker (buf : List ℕ) (i : ℕ)
    (h : findSubNat [0x08, 0x19] buf = some i) :
    ∃ e, parsePacket buf = (Except.error e, []) := by
  obtain ⟨e, he⟩ := runParseFields_error (buf.drop i)
  exact ⟨e, by rw [parsePacket_of_marker buf i h, he]⟩

/-- All slices taken by the field walk lie below byte 166 of the reframed
packet, so the walk only consults fixed per-field offsets: bytes from
offset 166 on, in particular any trailing stop marker, cannot influence it. -/
lemma pySlice_take_of_le (p : List ℕ) (a b n : ℕ) (h : b ≤ n) :
    pySlice (p.take n) a b = pySlice p a b := by
  simp only [pySlice, List.drop_take]
  rw [List.take_take]
  congr 1
  omega

lemma parseFields_take_166 (p : List ℕ) :
    parseFields (p.take 166) = parseFields p := by
  simp only [parseFields]
  rw [pySlice_take_of_le p 0 5 166 (by omega), pySlice_take_of_le p 5 9 166 (by omega),
    pySlice_take_of_le p 9 11 166 (by omega), pySlice_take_of_le p 11 13 166 (by omega),
    pySlice_take_of_le p 13 14 166 (by omega), pySlice_take_of_le p 14 18 166 (by omega),
    pySlice_take_of_le p 18 22 166 (by omega), pySlice_take_of_le p 22 26 166 (by omega),
    pySlice_take_of_le p 26 30 166 (by omega), pySlice_take_of_le p 29 31 166 (by omega),
    pySlice_take_of_le p 31 33 166 (by omega), pySlice_take_of_le p 33 35 166 (by omega),
    pySlice_take_of_le p 35 43 166 (by omega), pySlice_take_of_le p 43 49 166 (by omega),
    pySlice_take_of_le p 49 54 166 (by omega), pySlice_take_of_le p 54 56 166 (by omega),
    pySlice_take_of_le p 56 58 166 (by omega), pySlice_take_of_le p 58 60 166 (by omega),
    pySlice_take_of_le p 60 62 166 (by omega), pySlice_take_of_le p 62 64 166 (by omega),
    pySlice_take_of_le p 64 66 166 (by omega), pySlice_take_of_le p 66 68 166 (by omega),
    pySlice_take_of_le p 68 70 166 (by omega), pySlice_take_of_le p 70 72 166 (by omega),
    pySlice_take_of_le p 72 74 166 (by omega), pySlice_take_of_le p 74 76 166 (by omega),
    pySlice_take_of_le p 76 78 166 (by omega), pySlice_take_of_le p 78 80 166 (by omega),
    pySlice_take_of_le p 80 82 166 (by omega), pySlice_take_of_le p 82 88 166 (by omega),
    pySlice_take_of_le p 88 94 166 (by omega), pySlice_take_of_le p 94 96 166 (by omega),
    pySlice_take_of_le p 96 100 166 (by omega), pySlice_take_of_le p 100 106 166 (by omega),
    pySlice_take_of_le p 106 108 166 (by omega), pySlice_take_of_le p 108 109 166 (by omega),
    pySlice_take_of_le p 109 111 166 (by omega), pySlice_take_of_le p 111 113 166 (by omega),
    pySlice_take_of_le p 113 114 166 (by omega), pySlice_take_of_le p 114 115 166 (by omega),
    pySlice_take_of_le p 115 116 166 (by omega), pySlice_take_of_le p 116 117 166 (by omega),
    pySlice_take_of_le p 117 118 166 (by omega), pySlice_take_of_le p 118 119 166 (by omega),
    pySlice_take_of_le p 119 123 166 (by omega), pySlice_take_of_le p 123 124 166 (by omega),
    pySlice_take_of_le p 124 125 166 (by omega), pySlice_take_of_le p 125 126 166 (by omega),
    pySlice_take_of_le p 126 127 166 (by omega), pySlice_take_of_le p 127 128 166 (by omega),
    pySlice_take_of_le p 128 134 166 (by omega), pySlice_take_of_le p 134 136 166 (by omega),
    pySlice_take_of_le p 136 142 166 (by omega), pySlice_take_of_le p 142 148 166 (by omega),
    pySlice_take_of_le p 148 154 166 (by omega), pySlice_take_of_le p 154 166 166 (by omega)]

/-! ### Helper lemmas about `decodeBytes` -/

lemma nat_ldiff_zero (n : ℕ) : Nat.ldiff n 0 = n := by
  unfold Nat.ldiff Nat.bitwise
  by_cases h : n = 0
  · subst h; simp
  · simp [h]

lemma int_zero_lor (x : Int) : Int.lor 0 x = x := by
  cases x with
  | ofNat n =>
    show Int.lor (Int.ofNat 0) (Int.ofNat n) = Int.ofNat n
    simp [Int.lor]
  | negSucc n =>
    show Int.lor (Int.ofNat 0) (Int.negSucc n) = Int.negSucc n
    simp [Int.lor, nat_ldiff_zero]

lemma decodeBytes_two_unsigned (lo hi : ℕ) :
    (decodeBytes [lo, hi] true).1 =
      PyVal.int (np_uint16 (Int.lor (np_int8_shl (np_int8 (hi : Int)) 8)
        (np_uint8 (lo : Int)))) := rfl

lemma decodeBytes_two_signed (lo hi : ℕ) :
    (decodeBytes [lo, hi] false).1 =
      PyVal.int (np_int16 (Int.lor (np_uint8_shl (np_uint8 (hi : Int)) 8)
        (np_uint8 (lo : Int)))) := rfl

lemma decodeBytes_four_unsigned (b0 b1 b2 b3 : ℕ) :
    (decodeBytes [b0, b1, b2, b3] true).1 =
      PyVal.int (np_uint32 (Int.lor (Int.lor (Int.lor
        (np_uint8_shl (np_uint8 (b3 : Int)) 24)
        (np_uint8 ((b2 : Int) * 2 ^ 16)))
        (np_uint8 ((b1 : Int) * 2 ^ 8)))
        (np_uint8 ((b0 : Int) * 2 ^ 0)))) := rfl

lemma decodeBytes_four_signed (b0 b1 b2 b3 : ℕ) :
    (decodeBytes [b0, b1, b2, b3] false).1 =
      PyVal.int (np_int32 (Int.lor (Int.lor (Int.lor
        (np_uint8_shl (np_uint8 (b3 : Int)) 24)
        (np_uint8 ((b2 : Int) * 2 ^ 16)))
        (np_uint8 ((b1 : Int) * 2 ^ 8)))
        (np_uint8 ((b0 : Int) * 2 ^ 0)))) := rfl

/-! ### Claim theorems -/

/-- C3, counterexample: the claimed little-endian formula fails on the 4-byte
input `[0, 1, 0, 0]`, whose unsigned decode is 0, not `1 <<< 8 = 256`: the
source wraps the shifted byte inside `uint8(...)`, zeroing bytes 1 and 2. -/
theorem decodeBytes4_little_endian_refuted :
    (decodeBytes [0, 1, 0, 0] true).1 ≠
      PyVal.int (0 + 1 * 2 ^ 8 + 0 * 2 ^ 16 + 0 * 2 ^ 24) := by
  have h : (decodeBytes [0, 1, 0, 0] true).1 = PyVal.int 0 := rfl
  rw [h]
  simp

/-- C3, amended: for every 4-byte input, both the unsigned and the signed
decode return just the first byte `b0` (bytes 1 and 2 are zeroed by the
`uint8` casts wrapping their shifted values, and byte 3 by the 8-bit shift by
24), so the unsigned result lies in `[0, 2^32-1]`, the signed result lies in
`[-2^31, 2^31-1]`, and the two agree bit for bit on every input. -/
theorem decodeBytes4_returns_first_byte (b0 b1 b2 b3 : ℕ)
    (h0 : b0 < 256) (_h1 : b1 < 256) (_h2 : b2 < 256) (_h3 : b3 < 256) :
    (decodeBytes [b0, b1, b2, b3] true).1 = PyVal.int (b0 : Int) ∧
    (decodeBytes [b0, b1, b2, b3] false).1 = PyVal.int (b0 : Int) ∧
    0 ≤ (b0 : Int) ∧ (b0 : Int) < 2 ^ 32 ∧
    -(2 ^ 31) ≤ (b0 : Int) ∧ (b0 : Int) < 2 ^ 31 := by
  have hs : np_uint8_shl (np_uint8 (b3 : Int)) 24 = 0 := by simp [np_uint8_shl]
  have hb2 : np_uint8 ((b2 : Int) * 2 ^ 16) = 0 := by unfold np_uint8; omega
  have hb1 : np_uint8 ((b1 : Int) * 2 ^ 8) = 0 := by unfold np_uint8; omega
  have hb0 : np_uint8 ((b0 : Int) * 2 ^ 0) = (b0 : Int) := by unfold np_uint8; omega
  refine ⟨?_, ?_, by omega, by omega, by omega, by omega⟩
  · have hval : np_uint32 (b0 : Int) = (b0 : Int) := by unfold np_uint32; omega
    rw [decodeBytes_four_unsigned, hs, hb2, hb1, hb0]
    simp only [int_zero_lor]
    rw [hval]
  · have hval : np_int32 (b0 : Int) = (b0 : Int) := by unfold np_int32; omega
    rw [decodeBytes_four_signed, hs, hb2, hb1, hb0]
    simp only [int_zero_lor]
    rw [hval]

/-- C3 witness: instantiation of the amended 4-byte theorem at the concrete
input `[7, 1, 2, 3]`, with all byte bounds discharged. -/
theorem decodeBytes4_returns_first_byte_witness :
    (decodeBytes [7, 1, 2, 3] true).1 = PyVal.int (7 : Int) ∧
    (decodeBytes [7, 1, 2, 3] false).1 = PyVal.int (7 : Int) ∧
    0 ≤ ((7 : ℕ) : Int) ∧ ((7 : ℕ) : Int) < 2 ^ 32 ∧
    -(2 ^ 31) ≤ ((7 : ℕ) : Int) ∧ ((7 : ℕ) : Int) < 2 ^ 31 :=
  decodeBytes4_returns_first_byte 7 1 2 3 (by omega) (by omega) (by omega) (by omega)

/-- C7, counterexample: on `[0, 1]` the unsigned 2-byte decode is 0, not
`0 ||| (1 <<< 8) = 256`, and on `[0, 0x80]` the signed decode is 0, not the
negative sign extension `-32768`. -/
theorem decodeBytes2_claim_refuted :
    (decodeBytes [0, 1] true).1 ≠ PyVal.int (0 + 1 * 2 ^ 8) ∧
    (decodeBytes [0, 0x80] false).1 = PyVal.int 0 ∧
    (decodeBytes [0, 0x80] false).1 ≠ PyVal.int (-32768) := by
  have hu : (decodeBytes [0, 1] true).1 = PyVal.int 0 := rfl
  have hsgn : (decodeBytes [0, 0x80] false).1 = PyVal.int 0 := rfl
  refine ⟨?_, hsgn, ?_⟩
  · rw [hu]; simp
  · rw [hsgn]; simp

/-- C7, amended: for every 2-byte input `[lo, hi]`, both the unsigned and
the signed decode return just `lo`: the high byte is discarded because the
numpy shift `int8(hi) << 8` (resp. `uint8(hi) << 8`) is computed in 8-bit
arithmetic and yields 0.  The unsigned result hence lies in `[0, 255]`, a
subset of `[0, 65535]`, and the signed result is never negative, not even
when `hi ≥ 0x80`. -/
theorem decodeBytes2_returns_first_byte (lo hi : ℕ) (hlo : lo < 256) (_hhi : hi < 256) :
    (decodeBytes [lo, hi] true).1 = PyVal.int (lo : Int) ∧
    (decodeBytes [lo, hi] false).1 = PyVal.int (lo : Int) ∧
    0 ≤ (lo : Int) ∧ (lo : Int) ≤ 65535 := by
  have hu : np_int8_shl (np_int8 (hi : Int)) 8 = 0 := by simp [np_int8_shl]
  have hsg : np_uint8_shl (np_uint8 (hi : Int)) 8 = 0 := by simp [np_uint8_shl]
  have hb0 : np_uint8 (lo : Int) = (lo : Int) := by unfold np_uint8; omega
  refine ⟨?_, ?_, by omega, by omega⟩
  · have hval : np_uint16 (lo : Int) = (lo : Int) := by unfold np_uint16; omega
    rw [decodeBytes_two_unsigned, hu, hb0]
    simp only [int_zero_lor]
    rw [hval]
  · have hval : np_int16 (lo : Int) = (lo : Int) := by unfold np_int16; omega
    rw [decodeBytes_two_signed, hsg, hb0]
    simp only [int_zero_lor]
    rw [hval]

/-- C7 witness: instantiation of the amended 2-byte theorem at the concrete
input `[5, 0xC8]` (high byte above `0x80`), bounds discharged. -/
theorem decodeBytes2_returns_first_byte_witness :
    (decodeBytes [5, 200] true).1 = PyVal.int (5 : Int) ∧
    (decodeBytes [5, 200] false).1 = PyVal.int (5 : Int) ∧
    0 ≤ ((5 : ℕ) : Int) ∧ ((5 : ℕ) : Int) ≤ 65535 :=
  decodeBytes2_returns_first_byte 5 200 (by omega) (by omega)

/-- C8, counterexample: on the 1-byte input `[7]`, decodeBytes returns the
bytearray slice itself, not the integer value 7. -/
theorem decodeBytes1_claim_refuted :
    (decodeBytes [7] true).1 = PyVal.bytes [7] ∧
    (decodeBytes [7] true).1 ≠ PyVal.int 7 := by
  refine ⟨rfl, ?_⟩
  have h : (decodeBytes [7] true).1 = PyVal.bytes [7] := rfl
  rw [h]
  simp

/-- C8, amended: for every 1-byte input and either flag value, decodeBytes
returns the 1-byte bytearray unchanged (not its integer value); no sign
interpretation is applied and the contained byte is untouched. -/
theorem decodeBytes1_returns_bytearray (b0 : ℕ) (u : Bool) :
    decodeBytes [b0] u = (PyVal.bytes [b0], []) := rfl

/-- C9, counterexample: on the 3-byte input `[1, 2, 3]` decodeBytes returns
`None`, the very same value a successful no-op conversion such as
`decodeTimeStamp` produces, so the caller receives an ordinary non-error
value rather than a distinguished usage-error result. -/
theorem decodeBytes_badlen_claim_refuted :
    (decodeBytes [1, 2, 3] false).1 = PyVal.none ∧
    (decodeBytes [1, 2, 3] false).1 = decodeTimeStamp [] :=
  ⟨rfl, rfl⟩

/-- C9, amended: for every input whose length is not 1, 2 or 4, decodeBytes
logs one debug-level record ("More bytes than expected") and returns `None`:
it never coerces the bytes into an integer, but the `None` it returns is not
a distinguished error value. -/
theorem decodeBytes_badlen_returns_none (b : List ℕ) (u : Bool)
    (h1 : b.length ≠ 1) (h2 : b.length ≠ 2) (h4 : b.length ≠ 4) :
    decodeBytes b u = (PyVal.none, [(LogLevel.debug, "More bytes than expected")]) := by
  rcases b with _ | ⟨a, _ | ⟨c, _ | ⟨d, _ | ⟨e, t⟩⟩⟩⟩ <;> simp_all [decodeBytes]

/-- C9 witness: instantiation of the amended bad-length theorem at the
concrete 3-byte input `[1, 2, 3]`. -/
theorem decodeBytes_badlen_returns_none_witness :
    decodeBytes [1, 2, 3] true = (PyVal.none, [(LogLevel.debug, "More bytes than expected")]) :=
  decodeBytes_badlen_returns_none [1, 2, 3] true (by simp) (by simp) (by simp)

/-- C4, counterexample: on the input `[149, 150]` singled out by the claim,
`TempCalc` does not return the formula value at all: the summed voltage proxy
is 299, the log argument is negative, and the call raises `ValueError`
(math domain error). -/
theorem tempCalc_149_150_raises :
    TempCalc [149, 150] = Except.error PyErr.valueError :=
  tempCalc_domain_err 149 150 (Or.inr (by omega))

/-- C4, amended: for every 2-byte input whose byte sum lies in `{1, 2, 3}`
(so that `0 < Vraw < 3.3` and the log argument is positive), `TempCalc`
returns exactly `1 / (1/298 + ln((V/(3.3-V))*23000/10000)/3430) - 273`; on
inputs with byte sum 0 or at least 4 — including the showcased `[149, 150]` —
it instead raises `ValueError` from `math.log`. -/
theorem tempCalc_formula_on_valid_domain (b0 b1 : ℕ)
    (h1 : 1 ≤ b0 + b1) (h3 : b0 + b1 ≤ 3) :
    TempCalc [b0, b1] = Except.ok
      (1 / (1 / 298 +
        Real.log (((b0 : ℝ) + (b1 : ℝ)) / (3.3 - ((b0 : ℝ) + (b1 : ℝ))) * 23000 / 10000) / 3430)
        - 273) := by
  rw [tempCalc_ok b0 b1 h1 h3]
  unfold thermistorFormula
  norm_num

/-- C4 witness: instantiation of the amended formula theorem at the concrete
input `[1, 0]`, hypotheses discharged. -/
theorem tempCalc_formula_on_valid_domain_witness :
    TempCalc [1, 0] = Except.ok
      (1 / (1 / 298 +
        Real.log ((((1 : ℕ) : ℝ) + ((0 : ℕ) : ℝ)) /
          (3.3 - (((1 : ℕ) : ℝ) + ((0 : ℕ) : ℝ))) * 23000 / 10000) / 3430)
        - 273) :=
  tempCalc_formula_on_valid_domain 1 0 (by omega) (by omega)

/-- C5: for every 2-byte input whose summed raw voltage makes the divider
denominator zero (`Vraw = 3.3`, impossible for integer-valued bytes, handled
here all the same) or makes the log argument non-positive (`Vraw = 0` or
`Vraw ≥ 4`), `TempCalc` fails with the defined math-domain error result
(Python `ValueError: math domain error`, modelled as the typed error value
`PyErr.valueError` delivered to the caller) — it does not return a junk
number, `NaN` or infinity. -/
theorem tempCalc_domain_error_reported (b0 b1 : ℕ)
    (h : ((b0 : ℝ) + (b1 : ℝ) = 3.3) ∨ b0 + b1 = 0 ∨ 4 ≤ b0 + b1) :
    TempCalc [b0, b1] = Except.error PyErr.valueError := by
  rcases h with h | h
  · exfalso
    have h10 : ((10 * (b0 + b1) : ℕ) : ℝ) = 33 := by push_cast; linarith
    have h33 : 10 * (b0 + b1) = 33 := by exact_mod_cast h10
    omega
  · exact tempCalc_domain_err b0 b1 h

/-- C5 witness: instantiation of the domain-error theorem at the concrete
input `[0, 0]` (zero raw voltage, log argument zero). -/
theorem tempCalc_domain_error_reported_witness :
    TempCalc [0, 0] = Except.error PyErr.valueError :=
  tempCalc_domain_error_reported 0 0 (Or.inr (Or.inl rfl))

/-- C10: `findSyncStartIndex` returns the index of the first byte of the
leftmost occurrence of the start marker `0x08 0x19` when it occurs and the
sentinel `-1` when it does not (it is a total function, so no exception is
possible); `findSyncStopIndex` behaves the same way for the stop marker
`0xA5 0xA5`; and, as the claim illustrates, a buffer carrying the start
marker at index 17 yields 17. -/
theorem findSync_leftmost_or_sentinel (buf : List ℕ) :
    (findSyncStartIndex buf = -1 ↔ ∀ i : ℕ, (buf.drop i).take 2 ≠ [0x08, 0x19]) ∧
    (∀ i : ℕ, findSyncStartIndex buf = (i : Int) ↔
      ((buf.drop i).take 2 = [0x08, 0x19] ∧
        ∀ j : ℕ, j < i → (buf.drop j).take 2 ≠ [0x08, 0x19])) ∧
    (findSyncStopIndex buf = -1 ↔ ∀ i : ℕ, (buf.drop i).take 2 ≠ [0xa5, 0xa5]) ∧
    (∀ i : ℕ, findSyncStopIndex buf = (i : Int) ↔
      ((buf.drop i).take 2 = [0xa5, 0xa5] ∧
        ∀ j : ℕ, j < i → (buf.drop j).take 2 ≠ [0xa5, 0xa5])) ∧
    findSyncStartIndex (List.replicate 17 0 ++ [0x08, 0x19]) = 17 := by
  refine ⟨?_, fun i => ?_, ?_, fun i => ?_, by decide⟩
  · rw [findSyncStartIndex_eq_neg_one, findSubNat_none_iff]
    simp [List.length]
  · rw [findSyncStartIndex_eq_ofNat, findSubNat_some_iff]
    simp [List.length]
  · rw [findSyncStopIndex_eq_neg_one, findSubNat_none_iff]
    simp [List.length]
  · rw [findSyncStopIndex_eq_ofNat, findSubNat_some_iff]
    simp [List.length]

/-- C10 witness: the characterization applied at a concrete buffer carrying
the start marker at index 2, with the occurrence facts discharged by
computation. -/
theorem findSync_leftmost_or_sentinel_witness :
    findSyncStartIndex [1, 2, 0x08, 0x19, 7] = (2 : Int) :=
  ((findSync_leftmost_or_sentinel [1, 2, 0x08, 0x19, 7]).2.1 2).mpr
    ⟨by decide, by decide⟩

/-- C6: `parsePacket` returns the sentinel `-1` together with exactly one
error-level log record, raising nothing, precisely when the start marker
`0x08 0x19` occurs nowhere in the buffer; when the marker is found at offset
`i` it proceeds on exactly `buf.drop i`, the buffer with the bytes before the
start offset removed; and the field walk reads only fixed slices below byte
166 of the reframed buffer, so it neither searches for nor truncates at the
stop marker. -/
theorem parsePacket_framing (buf : List ℕ) :
    (parsePacket buf = (Except.ok (PyRet.retInt (-1)),
        [(LogLevel.error, "No start sync bytes found in minxss_parser, exiting.")]) ↔
      ∀ i : ℕ, (buf.drop i).take 2 ≠ [0x08, 0x19]) ∧
    (∀ i : ℕ, findSyncStartIndex buf = (i : Int) →
      parsePacket buf = runParseFields (buf.drop i)) ∧
    (∀ p : List ℕ, parseFields (p.take 166) = parseFields p) := by
  refine ⟨?_, ?_, parseFields_take_166⟩
  · cases h : findSubNat [0x08, 0x19] buf with
    | none =>
      constructor
      · intro _
        have hn := (findSubNat_none_iff [0x08, 0x19] buf).mp h
        simpa using hn
      · intro _
        exact parsePacket_of_no_marker buf h
    | some i =>
      constructor
      · intro hp
        obtain ⟨e, he⟩ := parsePacket_error_of_marker buf i h
        rw [hp] at he
        simp at he
      · intro hall
        obtain ⟨hm, _⟩ := (findSubNat_some_iff _ buf i).mp h
        exact absurd (by simpa using hm) (by simpa using hall i)
  · intro i hi
    exact parsePacket_of_marker buf i ((findSyncStartIndex_eq_ofNat buf i).mp hi)

/-- C6 witness: the reframing equation applied to the example packet, whose
start marker sits at offset 18. -/
theorem parsePacket_framing_witness :
    parsePacket exampleData = runParseFields (exampleData.drop 18) :=
  (parsePacket_framing exampleData).2.1 18 (by decide)

/-- C2: `parsePacket` can never return a telemetry dictionary: it returns the
sentinel `-1` exactly when the buffer holds no start marker, and whenever the
start marker is present the call raises an exception before completing —
in particular `BatteryVoltage` raises on every invocation (a `TypeError` from
`int(temp_hexdata, scale)` applied to an integer when its 2-byte slice is
full, an `IndexError` when the reframed buffer is too short for the slice). -/
theorem parsePacket_never_returns_dict (buf : List ℕ) :
    (∀ d, (parsePacket buf).1 ≠ Except.ok (PyRet.retDict d)) ∧
    ((parsePacket buf).1 = Except.ok (PyRet.retInt (-1)) ↔
      findSubNat [0x08, 0x19] buf = none) ∧
    (findSubNat [0x08, 0x19] buf ≠ none →
      ∃ e, (parsePacket buf).1 = Except.error e) ∧
    (∀ b : List ℕ, ∃ e, BatteryVoltage b = Except.error e) := by
  cases h : findSubNat [0x08, 0x19] buf with
  | none =>
    rw [parsePacket_of_no_marker buf h]
    refine ⟨fun d hd => ?_, by simp, fun hne => absurd rfl hne,
      fun b => ⟨_, batteryVoltage_error b⟩⟩
    simp at hd
  | some i =>
    obtain ⟨e, he⟩ := parsePacket_error_of_marker buf i h
    rw [he]
    refine ⟨fun d hd => ?_, ?_, fun _ => ⟨e, rfl⟩,
      fun b => ⟨_, batteryVoltage_error b⟩⟩
    · simp at hd
    · constructor
      · intro hc; simp at hc
      · intro hc; cases hc

/-- C2 witness: the example packet contains the start marker, and parsing it
indeed ends in an exception. -/
theorem parsePacket_never_returns_dict_witness :
    ∃ e, (parsePacket exampleData).1 = Except.error e :=
  (parsePacket_never_returns_dict exampleData).2.2.1 (by decide)

/-- C1: evaluating `parsePacket` on the documented example packet from the
module `__main__` block.  Contrary to the claim, the call does not return a
telemetry dictionary: the start marker is found at offset 18, the Temperature
bytes of the reframed buffer are `[0x02, 0x0A]`, their sum 12 drives the
thermistor log argument negative, and the call raises `ValueError` (math
domain error); `BatteryVoltage` would raise `TypeError` even if it did not. -/
theorem parsePacket_exampleData_raises :
    parsePacket exampleData = (Except.error PyErr.valueError, []) := by
  have hfind : findSubNat [0x08, 0x19] exampleData = some 18 := by decide
  rw [parsePacket_of_marker exampleData 18 hfind]
  have hslice : pySlice (exampleData.drop 18) 11 13 = [2, 10] := by decide
  have htemp : TempCalc (pySlice (exampleData.drop 18) 11 13) =
      Except.error PyErr.valueError := by
    rw [hslice]
    exact tempCalc_domain_err 2 10 (Or.inr (by omega))
  have hpf := parseFields_error_of_temp_error _ _ htemp
  rw [runParseFields, hpf]

end MinxssParser
